import Mathlib

/-!
Shallow embedding of the request-normalization and streaming-response core of
the LMStudioAPI gateway (src/app/services.py, src/app/routes/chat.py,
src/app/schemas.py, src/app/config.py), together with theorems settling the
specification's claims about it.

Conventions of the embedding:
* Python dictionaries with optional keys become structures of `Option`
  fields; `none` models an absent key (for which `dict.get` returns the
  default).  Where the code distinguishes a key present with value `None`
  from an absent key — the `mime_type` of an image attachment — the field is
  an `Option (Option String)`.
* Python truthiness on strings is explicit: both `None` and the empty string
  are falsy (`truthyS`).  Python `x or y` on an optional string is `pyOrStr`.
* Numeric configuration values are embedded as `PyVal` (an int or a
  rational), since the code forwards them verbatim and never computes with
  them.
* The asynchronous backend is embedded as data: a non-streaming call yields a
  `BackendResponse`; a streaming call yields the finite list of `Chunk`
  values delivered before the stream either ends normally or raises.
-/

namespace LMStudio

/-- Python truthiness for an optional string: `None` and `""` are falsy. -/
def truthyS : Option String → Bool
  | none => false
  | some s => s ≠ ""

/-- Python `a or b` where `a` is an optional string and `b` a string:
returns `b` exactly when `a` is falsy (absent, `None`, or empty). -/
def pyOrStr (a : Option String) (b : String) : String :=
  match a with
  | none => b
  | some s => if s = "" then b else s

/-- An image attachment mapping as consumed by `build_messages`
(src/app/services.py lines 68-79).  `data_base64 = none` models an absent
key (`img.get("data_base64")` returns `None`; a key present with value
`None` behaves identically under the truthiness test that follows).
`mime_type` distinguishes an absent key (`none`: `img.get` returns the
default `"image/jpeg"`) from a key present with value `None`
(`some none`: the `None` value is interpolated into the data URI as the
text `"None"`) and from a present string (`some (some s)`). -/
structure ImgDict where
  data_base64 : Option String
  mime_type : Option (Option String)
  deriving DecidableEq

/-- The string Python interpolates for the attachment's mime type:
`img.get("mime_type", "image/jpeg")` followed by f-string conversion
(`str(None) = "None"`). -/
def mimeText : Option (Option String) → String
  | none => "image/jpeg"
  | some none => "None"
  | some (some s) => s

/-- A chat-turn mapping as consumed by `build_messages`
(src/app/services.py lines 46-49): `role` defaults to `"user"`, `content`
to `""`; `images` is `none` when the key is absent or its value is `None`
or the empty list (the code's `msg.get("images", []) or []` collapses all
three to `[]`). -/
structure MsgDict where
  role : Option String
  content : Option String
  images : Option (List ImgDict)
  deriving DecidableEq

/-- One element of a multi-part content list: a text part or an image-URL
part (src/app/services.py lines 60-78). -/
inductive Part where
  | textPart (text : String)
  | imagePart (url : String)
  deriving DecidableEq

/-- The content of a formatted message: the plain-text form or the
multi-part form (src/app/services.py lines 52-84). -/
inductive Content where
  | text (s : String)
  | parts (ps : List Part)
  deriving DecidableEq

/-- A formatted (backend-facing) message. -/
structure OutMsg where
  role : String
  content : Content
  deriving DecidableEq

/-- The image-part computation for one attachment (the body of the
`for img in images` loop, src/app/services.py lines 68-79): `b64 =
img.get("data_base64")`, then `if b64:` appends a data-URI image part,
otherwise no part. -/
def imagePartOf (img : ImgDict) : Option Part :=
  match img.data_base64 with
  | none => none
  | some b64 =>
      if b64 = "" then none
      else some (Part.imagePart ("data:" ++ mimeText img.mime_type ++ ";base64," ++ b64))

/-- Formatting of one message (the body of the `for msg in messages` loop,
src/app/services.py lines 45-84). -/
def buildMessage (msg : MsgDict) : OutMsg :=
  let role := msg.role.getD "user"
  let content := msg.content.getD ""
  let images := msg.images.getD []
  if images.isEmpty then
    ⟨role, Content.text content⟩
  else
    let textParts := if content = "" then [] else [Part.textPart content]
    ⟨role, Content.parts (textParts ++ images.filterMap imagePartOf)⟩

/-- `build_messages` (src/app/services.py lines 39-86): formats each
incoming message in order. -/
def build_messages (messages : List MsgDict) : List OutMsg :=
  messages.map buildMessage

example :
    build_messages [⟨some "user", some "hi", none⟩] =
      [⟨"user", Content.text "hi"⟩] := by decide

example :
    build_messages [⟨none, some "describe",
        some [⟨some "QQ==", some (some "image/png")⟩]⟩] =
      [⟨"user", Content.parts
        [Part.textPart "describe",
         Part.imagePart "data:image/png;base64,QQ=="]⟩] := by decide

example :
    build_messages [⟨some "tool", some "", some [⟨none, none⟩, ⟨some "AA", none⟩]⟩] =
      [⟨"tool", Content.parts [Part.imagePart "data:image/jpeg;base64,AA"]⟩] := by
  decide

/-- The loop over attachments keeps exactly the attachments whose data is a
non-empty string, in order, and turns each into its data-URI image part. -/
theorem filterMap_imagePartOf (l : List ImgDict) :
    l.filterMap imagePartOf =
      (l.filter (fun img => img.data_base64.getD "" ≠ "")).map
        (fun img => Part.imagePart
          ("data:" ++ mimeText img.mime_type ++ ";base64," ++ img.data_base64.getD "")) := by
  induction l with
  | nil => rfl
  | cons a t ih =>
    cases h : a.data_base64 with
    | none =>
        simp [List.filterMap_cons, List.filter_cons, imagePartOf, h, ih]
    | some b =>
        by_cases hb : b = "" <;>
          simp [List.filterMap_cons, List.filter_cons, imagePartOf, h, hb, ih]

/-- C4: `build_messages` returns exactly one formatted message per input
turn, in input order (the i-th output is the formatting of the i-th input).
It is a total function over the modelled malformed inputs (absent role,
content or images keys; attachments without data), and an unknown role
string is passed through unchanged into the output. -/
theorem build_messages_one_per_turn :
    (∀ messages : List MsgDict,
      (build_messages messages).length = messages.length) ∧
    (∀ (messages : List MsgDict) (i : Nat),
      (build_messages messages).get? i = (messages.get? i).map buildMessage) ∧
    (∀ msg : MsgDict, (buildMessage msg).role = msg.role.getD "user") := by
  refine ⟨fun messages => ?_, fun messages i => ?_, fun msg => ?_⟩
  · simp [build_messages]
  · simp [build_messages]
  · by_cases h : (msg.images.getD []).isEmpty <;> simp [buildMessage, h]

/-- C5: a turn with no attachments formats to the plain-text form (role and
content string); a turn with attachments formats to the multi-part form: a
text part first exactly when the turn's text is non-empty, then one image
part per attachment whose data is a non-empty string, in attachment order,
each a data URI `data:<mime>;base64,<data>` whose mime text defaults to
`image/jpeg` when the key is absent; attachments with absent or empty data
produce no part. -/
theorem buildMessage_shape (msg : MsgDict) :
    (msg.images.getD [] = [] →
      buildMessage msg =
        ⟨msg.role.getD "user", Content.text (msg.content.getD "")⟩) ∧
    (msg.images.getD [] ≠ [] →
      buildMessage msg =
        ⟨msg.role.getD "user", Content.parts
          ((if msg.content.getD "" = "" then []
            else [Part.textPart (msg.content.getD "")]) ++
           ((msg.images.getD []).filter
              (fun img => img.data_base64.getD "" ≠ "")).map
             (fun img => Part.imagePart
               ("data:" ++ mimeText img.mime_type ++ ";base64," ++
                 img.data_base64.getD "")))⟩) := by
  constructor
  · intro h
    simp [buildMessage, h]
  · intro h
    have hE : (msg.images.getD []).isEmpty = false := by
      simpa [List.isEmpty_iff] using h
    simp [buildMessage, hE, filterMap_imagePartOf]

/-- Witness for `buildMessage_shape` at concrete turns: a text-only turn and
the spec's vision scenario (text `"describe"`, one `image/png` attachment). -/
theorem buildMessage_shape_witness :
    buildMessage ⟨some "user", some "hi", none⟩ = ⟨"user", Content.text "hi"⟩ ∧
    buildMessage ⟨some "user", some "describe",
        some [⟨some "QQ==", some (some "image/png")⟩]⟩ =
      ⟨"user", Content.parts [Part.textPart "describe",
        Part.imagePart "data:image/png;base64,QQ=="]⟩ := by
  constructor
  · have h := (buildMessage_shape ⟨some "user", some "hi", none⟩).1 (by decide)
    rw [h]; decide
  · have h := (buildMessage_shape ⟨some "user", some "describe",
      some [⟨some "QQ==", some (some "image/png")⟩]⟩).2 (by decide)
    rw [h]; decide

/-- C10: when the `mime_type` key is present with value `None` (as produced
by an explicit JSON null), the default `image/jpeg` is not substituted:
`build_messages` emits an image part whose URL is the literal text
`data:None;base64,` followed by the data. -/
theorem mime_null_literal (role text b64 : String) (h : b64 ≠ "") :
    imagePartOf ⟨some b64, some none⟩ =
      some (Part.imagePart ("data:None;base64," ++ b64)) ∧
    build_messages [⟨some role, some text, some [⟨some b64, some none⟩]⟩] =
      [⟨role, Content.parts
        ((if text = "" then [] else [Part.textPart text]) ++
         [Part.imagePart ("data:None;base64," ++ b64)])⟩] := by
  constructor
  · simp [imagePartOf, mimeText, h]
  · simp [build_messages, buildMessage, imagePartOf, mimeText, h]

/-- Witness for `mime_null_literal` at a concrete attachment. -/
theorem mime_null_literal_witness :
    build_messages [⟨some "user", some "", some [⟨some "QQ==", some none⟩]⟩] =
      [⟨"user", Content.parts [Part.imagePart "data:None;base64,QQ=="]⟩] := by
  have h := (mime_null_literal "user" "" "QQ==" (by decide)).2
  rw [h]; decide

/-- A numeric value carried through the configuration mapping verbatim:
a Python int or float (floats embedded as rationals; the code never
computes with them, so only identity matters). -/
inductive PyVal where
  | int (n : Int)
  | float (q : Rat)
  deriving DecidableEq

/-- The generation-configuration mapping passed to `respond` and
`stream_respond`: the payload of `config.model_dump(exclude_none=True)`,
one optional entry per client-facing key (src/app/schemas.py, `ChatConfig`).
A `none` field models an absent key. -/
structure Cfg where
  temperature : Option PyVal
  maxTokens : Option PyVal
  topP : Option PyVal
  presencePenalty : Option PyVal
  frequencyPenalty : Option PyVal
  deriving DecidableEq

/-- The empty mapping `{}` that `cfg = config or {}` substitutes for an
absent configuration. -/
def emptyCfg : Cfg := ⟨none, none, none, none, none⟩

/-- One conditional insertion `if k in cfg: params[k'] = cfg[k]`. -/
def addParam (k : String) : Option PyVal → List (String × PyVal)
  | some v => [(k, v)]
  | none => []

/-- The generation parameters added to the backend call by the `if ... in
cfg` chain shared verbatim by `respond` (src/app/services.py lines 110-126)
and `stream_respond` (lines 158-175), as an ordered key-value list mirroring
Python dict insertion order (the base entries `model`, `messages`, `stream`
are handled separately). -/
def genParams (config : Option Cfg) : List (String × PyVal) :=
  addParam "temperature" ((config.getD emptyCfg).temperature) ++
  addParam "max_tokens" ((config.getD emptyCfg).maxTokens) ++
  addParam "top_p" ((config.getD emptyCfg).topP) ++
  addParam "presence_penalty" ((config.getD emptyCfg).presencePenalty) ++
  addParam "frequency_penalty" ((config.getD emptyCfg).frequencyPenalty)

example :
    genParams (some ⟨some (PyVal.int 1), none, none, none, some (PyVal.int 2)⟩) =
      [("temperature", PyVal.int 1), ("frequency_penalty", PyVal.int 2)] := rfl

/-- An entry occurs in a conditional insertion exactly when the key matches
and the field is present with that value. -/
theorem mem_addParam (k k' : String) (v : PyVal) (o : Option PyVal) :
    (k, v) ∈ addParam k' o ↔ k = k' ∧ o = some v := by
  cases o with
  | none => simp [addParam]
  | some w => simp [addParam, Prod.ext_iff]; tauto

/-- The keys contributed by one conditional insertion form a sublist of the
one-key list. -/
theorem addParam_keys (k : String) (o : Option PyVal) :
    ((addParam k o).map Prod.fst).Sublist [k] := by
  cases o <;> simp [addParam]

/-- C6: the generation parameters contain exactly the entries of the present
configuration fields — an entry `(k, v)` occurs precisely when the
corresponding client field is present with value `v`, under the fixed
renaming temperature→temperature, maxTokens→max_tokens, topP→top_p,
presencePenalty→presence_penalty, frequencyPenalty→frequency_penalty —
the keys are never duplicated, and an absent configuration contributes no
parameters. -/
theorem genParams_exact :
    (∀ (config : Option Cfg) (k : String) (v : PyVal),
      ((k, v) ∈ genParams config ↔
        (k = "temperature" ∧ (config.getD emptyCfg).temperature = some v) ∨
        (k = "max_tokens" ∧ (config.getD emptyCfg).maxTokens = some v) ∨
        (k = "top_p" ∧ (config.getD emptyCfg).topP = some v) ∨
        (k = "presence_penalty" ∧ (config.getD emptyCfg).presencePenalty = some v) ∨
        (k = "frequency_penalty" ∧ (config.getD emptyCfg).frequencyPenalty = some v))) ∧
    (∀ config : Option Cfg, ((genParams config).map Prod.fst).Nodup) ∧
    genParams none = [] := by
  refine ⟨fun config k v => ?_, fun config => ?_, rfl⟩
  · simp [genParams, mem_addParam]
  · have hsub : ((genParams config).map Prod.fst).Sublist
        ["temperature", "max_tokens", "top_p", "presence_penalty", "frequency_penalty"] := by
      simp only [genParams, List.map_append]
      exact ((((addParam_keys _ _).append (addParam_keys _ _)).append
        (addParam_keys _ _)).append (addParam_keys _ _)).append (addParam_keys _ _)
    exact List.Nodup.sublist hsub (by decide)

/-- The two configured default model identifiers (src/app/config.py,
`Settings`); they are environment-overridable, so they are parameters of the
embedding. -/
structure Settings where
  default_regular_model : String
  default_vision_model : String
  deriving DecidableEq

/-- Model resolution on the explicit path: the line
`model = model_key or settings.default_regular_model` shared by `respond`
(src/app/services.py line 102) and `stream_respond` (line 151). -/
def resolveExplicit (model_key : Option String) (s : Settings) : String :=
  pyOrStr model_key s.default_regular_model

/-- Model resolution on the regular path: `respond_regular` (src/app/services.py
lines 221-225) passes `settings.default_regular_model` as the key into
`respond`, where the explicit-path line runs on it. -/
def resolveRegular (s : Settings) : String :=
  resolveExplicit (some s.default_regular_model) s

/-- Model resolution on the vision path: `respond_vision` (src/app/services.py
lines 236-240) passes `settings.default_vision_model` as the key into
`respond`, where the explicit-path line runs on it. -/
def resolveVision (s : Settings) : String :=
  resolveExplicit (some s.default_vision_model) s

/-- C7 counterexample: a client-supplied `modelKey` that is present but is
the empty string does not become the resolved model — Python's `or` treats
it as falsy, so resolution falls back to the configured regular-default. -/
theorem resolve_empty_key_cex :
    resolveExplicit (some "") ⟨"m1", "v1"⟩ = "m1" ∧ ("m1" : String) ≠ "" := by
  constructor
  · rfl
  · decide

/-- C7 amended: on the explicit path the resolved model is the
client-supplied `modelKey` when it is present and non-empty, and the
configured regular-default otherwise; on the regular path it is always the
configured regular-default; on the vision path it is the configured
vision-default when that is non-empty, and falls back to the configured
regular-default when the configured vision-default is the empty string. -/
theorem resolve_model_amended :
    (∀ (k : String) (s : Settings),
      resolveExplicit (some k) s =
        if k = "" then s.default_regular_model else k) ∧
    (∀ s : Settings, resolveExplicit none s = s.default_regular_model) ∧
    (∀ s : Settings, resolveRegular s = s.default_regular_model) ∧
    (∀ s : Settings,
      resolveVision s =
        if s.default_vision_model = "" then s.default_regular_model
        else s.default_vision_model) := by
  refine ⟨fun k s => rfl, fun s => rfl, fun s => ?_, fun s => rfl⟩
  by_cases h : s.default_regular_model = "" <;>
    simp [resolveRegular, resolveExplicit, pyOrStr, h]

/-- The delta of a streamed choice: `delta.content` may be absent. -/
structure Delta where
  content : Option String
  deriving DecidableEq

/-- One choice of a streamed chunk: `delta` may itself be `None` (the code
tests `if choice.delta and choice.delta.content:`), and `finish_reason` is
optional. -/
structure ChunkChoice where
  delta : Option Delta
  finish_reason : Option String
  deriving DecidableEq

/-- One incremental unit of the backend stream: a list of choices (the code
only looks at the first, and skips the unit when the list is empty) and an
optional model name. -/
structure Chunk where
  choices : List ChunkChoice
  model : Option String
  deriving DecidableEq

/-- An event yielded by `stream_respond` (src/app/services.py lines 196-217):
a text fragment or the terminal summary. -/
inductive StreamEvent where
  | fragment (content : String)
  | done (model : String) (predicted_tokens : Option Nat) (stop_reason : Option String)
  deriving DecidableEq

/-- Whether an event is a fragment. -/
def isFragment : StreamEvent → Bool
  | .fragment _ => true
  | .done _ _ _ => false

/-- The running state of `stream_respond`'s loop (src/app/services.py lines
183-186): `model_name`, `total_tokens`, `finish_reason`. -/
structure StreamState where
  model_name : Option String
  total_tokens : Nat
  finish_reason : Option String
  deriving DecidableEq

/-- The state before the first chunk: `model_name = None`,
`total_tokens = 0`, `finish_reason = None`. -/
def initState : StreamState := ⟨none, 0, none⟩

/-- One iteration of the `async for chunk in stream` loop
(src/app/services.py lines 188-210): skip a chunk without choices; capture
the model name from the chunk when none is captured yet and the chunk's is
truthy; yield a fragment and count it when the first choice's delta carries
truthy content; record a truthy finish reason. -/
def stepChunk (st : StreamState) (c : Chunk) : StreamState × List StreamEvent :=
  match c.choices with
  | [] => (st, [])
  | choice :: _ =>
      let mn := if st.model_name = none ∧ truthyS c.model then c.model
                else st.model_name
      let (evs, tok) :=
        match choice.delta with
        | some d =>
            match d.content with
            | some s =>
                if s = "" then ([], st.total_tokens)
                else ([StreamEvent.fragment s], st.total_tokens + 1)
            | none => ([], st.total_tokens)
        | none => ([], st.total_tokens)
      let fr := if truthyS choice.finish_reason then choice.finish_reason
                else st.finish_reason
      (⟨mn, tok, fr⟩, evs)

/-- The whole loop: consume the delivered chunks in order, threading the
state and concatenating the yielded events. -/
def runChunks : StreamState → List Chunk → StreamState × List StreamEvent
  | st, [] => (st, [])
  | st, c :: cs =>
      let (st1, evs) := stepChunk st c
      let (st2, rest) := runChunks st1 cs
      (st2, evs ++ rest)

/-- The terminal event (src/app/services.py lines 212-217): resolved model
with fallback to the requested one, token count suppressed when zero, and
the last recorded finish reason. -/
def doneEvent (model : String) (st : StreamState) : StreamEvent :=
  StreamEvent.done (st.model_name.getD model)
    (if st.total_tokens > 0 then some st.total_tokens else none)
    st.finish_reason

/-- `stream_respond` (src/app/services.py lines 144-217) on a backend stream
that delivers `chunks` and then ends normally: the loop's events followed by
the single terminal event.  `model` is the requested model (already resolved
by `resolveExplicit`). -/
def stream_respond (model : String) (chunks : List Chunk) : List StreamEvent :=
  (runChunks initState chunks).2 ++ [doneEvent model (runChunks initState chunks).1]

/-- `stream_respond` on a backend stream that delivers `chunks` and then
raises: the `async for` re-raises out of the generator, so the events
already yielded are the whole output and the terminal yield is never
reached. -/
def stream_respond_err (model : String) (chunks : List Chunk) : List StreamEvent :=
  (runChunks initState chunks).2

/-- The fragment contents one chunk yields (none unless the chunk has a
choice whose delta carries truthy content). -/
def chunkFrags (c : Chunk) : List String :=
  match c.choices with
  | [] => []
  | choice :: _ =>
      match choice.delta with
      | some d =>
          match d.content with
          | some s => if s = "" then [] else [s]
          | none => []
      | none => []

/-- The model name a chunk contributes for capture: present only when the
chunk has a choice and its model field is truthy. -/
def chunkModel (c : Chunk) : Option String :=
  match c.choices with
  | [] => none
  | _ :: _ => if truthyS c.model then c.model else none

/-- The finish reason a chunk records: present only when the chunk has a
choice whose finish reason is truthy. -/
def chunkFinish (c : Chunk) : Option String :=
  match c.choices with
  | [] => none
  | choice :: _ =>
      if truthyS choice.finish_reason then choice.finish_reason else none

example :
    stream_respond "req"
      [⟨[⟨some ⟨some "a"⟩, none⟩], some "m"⟩,
       ⟨[⟨some ⟨some "b"⟩, none⟩], some "m"⟩,
       ⟨[⟨some ⟨some "c"⟩, none⟩], some "m"⟩,
       ⟨[⟨some ⟨none⟩, some "stop"⟩], some "m"⟩] =
      [StreamEvent.fragment "a", StreamEvent.fragment "b", StreamEvent.fragment "c",
       StreamEvent.done "m" (some 3) (some "stop")] := by decide

example :
    stream_respond "req" [] = [StreamEvent.done "req" none none] := by decide

/-- First-some choice on optional strings (Python `a if a is not None else b`
at the option level), used to state how the loop threads its state. -/
def orO (a b : Option String) : Option String :=
  match a with
  | some x => some x
  | none => b

theorem orO_none_left (b : Option String) : orO none b = b := rfl

theorem orO_none_right (a : Option String) : orO a none = a := by
  cases a <;> rfl

/-- One step yields exactly the chunk's fragment contents, as events. -/
theorem stepChunk_events (st : StreamState) (c : Chunk) :
    (stepChunk st c).2 = (chunkFrags c).map StreamEvent.fragment := by
  cases hc : c.choices with
  | nil => simp [stepChunk, chunkFrags, hc]
  | cons choice rest =>
      cases hd : choice.delta with
      | none => simp [stepChunk, chunkFrags, hc, hd]
      | some d =>
          cases hs : d.content with
          | none => simp [stepChunk, chunkFrags, hc, hd, hs]
          | some s =>
              by_cases h : s = "" <;> simp [stepChunk, chunkFrags, hc, hd, hs, h]

/-- One step increases the token counter by the number of fragments the
chunk yields. -/
theorem stepChunk_tokens (st : StreamState) (c : Chunk) :
    (stepChunk st c).1.total_tokens = st.total_tokens + (chunkFrags c).length := by
  cases hc : c.choices with
  | nil => simp [stepChunk, chunkFrags, hc]
  | cons choice rest =>
      cases hd : choice.delta with
      | none => simp [stepChunk, chunkFrags, hc, hd]
      | some d =>
          cases hs : d.content with
          | none => simp [stepChunk, chunkFrags, hc, hd, hs]
          | some s =>
              by_cases h : s = "" <;> simp [stepChunk, chunkFrags, hc, hd, hs, h]

/-- One step keeps an already-captured model name and otherwise captures the
chunk's contribution. -/
theorem stepChunk_model (st : StreamState) (c : Chunk) :
    (stepChunk st c).1.model_name = orO st.model_name (chunkModel c) := by
  cases hc : c.choices with
  | nil => cases hm : st.model_name <;> simp [stepChunk, chunkModel, hc, hm, orO]
  | cons choice rest =>
      cases hm : st.model_name <;>
        cases ht : truthyS c.model <;>
          simp [stepChunk, chunkModel, hc, hm, ht, orO]

/-- One step records the chunk's finish-reason contribution, keeping the
previous one when the chunk contributes none. -/
theorem stepChunk_finish (st : StreamState) (c : Chunk) :
    (stepChunk st c).1.finish_reason = orO (chunkFinish c) st.finish_reason := by
  cases hc : c.choices with
  | nil => simp [stepChunk, chunkFinish, hc, orO]
  | cons choice rest =>
      cases ht : truthyS choice.finish_reason <;>
        simp [stepChunk, chunkFinish, hc, ht, orO]
      cases hf : choice.finish_reason
      · rw [hf] at ht; simp [truthyS] at ht
      · simp

/-- The loop yields exactly the concatenation, in arrival order, of each
chunk's fragment contents. -/
theorem runChunks_events (st : StreamState) (chunks : List Chunk) :
    (runChunks st chunks).2 = ((chunks.map chunkFrags).flatten).map StreamEvent.fragment := by
  induction chunks generalizing st with
  | nil => simp [runChunks]
  | cons c cs ih => simp [runChunks, stepChunk_events, ih]

/-- The final token counter counts the fragments yielded. -/
theorem runChunks_tokens (st : StreamState) (chunks : List Chunk) :
    (runChunks st chunks).1.total_tokens =
      st.total_tokens + ((chunks.map chunkFrags).flatten).length := by
  induction chunks generalizing st with
  | nil => simp [runChunks]
  | cons c cs ih =>
      rw [runChunks]
      simp only [ih, stepChunk_tokens]
      simp [Nat.add_assoc]

/-- The final model name is the initially captured one, else the first
contribution among the chunks. -/
theorem runChunks_model (st : StreamState) (chunks : List Chunk) :
    (runChunks st chunks).1.model_name =
      orO st.model_name ((chunks.filterMap chunkModel).head?) := by
  induction chunks generalizing st with
  | nil => simp [runChunks, orO_none_right]
  | cons c cs ih =>
      rw [runChunks]
      simp only [ih, stepChunk_model]
      cases hm : st.model_name with
      | some m => simp [orO]
      | none =>
          cases hcm : chunkModel c <;>
            simp [orO, List.filterMap_cons, hcm]

/-- The last element of a cons, as a first-some of the tail's last element
and the head. -/
theorem getLast?_cons_orO (r : String) (l : List String) :
    (r :: l).getLast? = orO l.getLast? (some r) := by
  induction l generalizing r with
  | nil => rfl
  | cons b t ih =>
      rw [List.getLast?_cons_cons, ih b]
      cases t.getLast? <;> rfl

/-- The final finish reason is the last contribution among the chunks, else
the initial one. -/
theorem runChunks_finish (st : StreamState) (chunks : List Chunk) :
    (runChunks st chunks).1.finish_reason =
      orO ((chunks.filterMap chunkFinish).getLast?) st.finish_reason := by
  induction chunks generalizing st with
  | nil => simp [runChunks, orO]
  | cons c cs ih =>
      rw [runChunks]
      simp only [ih, stepChunk_finish]
      cases hcm : chunkFinish c with
      | none => simp [orO, List.filterMap_cons, hcm]
      | some r =>
          rw [List.filterMap_cons_some hcm, getLast?_cons_orO]
          cases (cs.filterMap chunkFinish).getLast? <;> rfl

/-- C1: on a backend stream that ends normally, the produced events are zero
or more fragments followed by exactly one terminal `done` event, which is
the last element; no event follows it. -/
theorem stream_fragments_then_done (model : String) (chunks : List Chunk) :
    ∃ (frs : List StreamEvent) (dm : String) (pt : Option Nat) (sr : Option String),
      stream_respond model chunks = frs ++ [StreamEvent.done dm pt sr] ∧
      ∀ f ∈ frs, isFragment f = true := by
  refine ⟨(runChunks initState chunks).2,
    (runChunks initState chunks).1.model_name.getD model,
    (if (runChunks initState chunks).1.total_tokens > 0
     then some (runChunks initState chunks).1.total_tokens else none),
    (runChunks initState chunks).1.finish_reason, rfl, ?_⟩
  rw [runChunks_events]
  intro f hf
  simp only [List.mem_map] at hf
  obtain ⟨s, -, rfl⟩ := hf
  rfl

/-- C2: on a backend stream that raises after delivering some chunks, the
produced events are exactly the fragments those chunks yielded, in order,
and no `done` event is ever produced (the error re-raises out of the
generator before the terminal yield). -/
theorem stream_error_no_done (model : String) (chunks : List Chunk) :
    stream_respond_err model chunks =
      ((chunks.map chunkFrags).flatten).map StreamEvent.fragment ∧
    ∀ e ∈ stream_respond_err model chunks, isFragment e = true := by
  refine ⟨runChunks_events _ _, fun e he => ?_⟩
  rw [stream_respond_err, runChunks_events] at he
  simp only [List.mem_map] at he
  obtain ⟨s, -, rfl⟩ := he
  rfl

/-- The claim's reading of model capture: the model name reported by the
first backend unit that reports one, with no regard to whether the unit
carries any choice.  (Modelled from the spec's words for comparison with the
code's behaviour.) -/
def specFirstModel (chunks : List Chunk) : Option String :=
  (chunks.filterMap (fun c => if truthyS c.model then c.model else none)).head?

/-- C3 counterexample: the code captures the model name only from units that
carry at least one choice.  A first unit that reports model `"a"` but has no
choices is skipped, and the terminal event carries `"b"` from the second
unit — not `"a"` as the claim's reading requires. -/
theorem stream_model_capture_cex :
    stream_respond "req" [⟨[], some "a"⟩, ⟨[⟨none, none⟩], some "b"⟩] =
      [StreamEvent.done "b" none none] ∧
    specFirstModel [⟨[], some "a"⟩, ⟨[⟨none, none⟩], some "b"⟩] = some "a" ∧
    ("b" : String) ≠ "a" := by
  refine ⟨by decide, by decide, by decide⟩

/-- C3 amended: on a normally-ending backend stream the terminal event
carries: the model name contributed by the first unit that has at least one
choice and reports a truthy (non-empty) model name, falling back to the
requested model if no such unit exists; the number of fragment events, or
absent when it is zero; and the most recent truthy (non-empty) finish reason
among units with at least one choice, absent if none. -/
theorem stream_done_fields (model : String) (chunks : List Chunk) :
    stream_respond model chunks =
      ((chunks.map chunkFrags).flatten).map StreamEvent.fragment ++
      [StreamEvent.done
        (((chunks.filterMap chunkModel).head?).getD model)
        (if ((chunks.map chunkFrags).flatten).length > 0
         then some ((chunks.map chunkFrags).flatten).length else none)
        ((chunks.filterMap chunkFinish).getLast?)] := by
  rw [stream_respond, doneEvent, runChunks_events, runChunks_model,
    runChunks_tokens, runChunks_finish]
  simp [initState, orO_none_left, orO_none_right]

/-- Witness for `stream_fragments_then_done` at a concrete one-chunk stream. -/
theorem stream_fragments_then_done_witness :
    ∃ (frs : List StreamEvent) (dm : String) (pt : Option Nat) (sr : Option String),
      stream_respond "req" [⟨[⟨some ⟨some "a"⟩, none⟩], some "m"⟩] =
        frs ++ [StreamEvent.done dm pt sr] ∧
      ∀ f ∈ frs, isFragment f = true :=
  stream_fragments_then_done "req" [⟨[⟨some ⟨some "a"⟩, none⟩], some "m"⟩]

/-- Witness for `stream_error_no_done` at a concrete stream that errors
after one fragment. -/
theorem stream_error_no_done_witness :
    stream_respond_err "req" [⟨[⟨some ⟨some "a"⟩, none⟩], some "m"⟩] =
      [StreamEvent.fragment "a"] := by
  have h := (stream_error_no_done "req" [⟨[⟨some ⟨some "a"⟩, none⟩], some "m"⟩]).1
  rw [h]; rfl

/-- Witness for `stream_done_fields` at a concrete stream: one fragment,
then a finish reason. -/
theorem stream_done_fields_witness :
    stream_respond "req" [⟨[⟨some ⟨some "a"⟩, some "stop"⟩], some "m"⟩] =
      [StreamEvent.fragment "a", StreamEvent.done "m" (some 1) (some "stop")] := by
  have h := stream_done_fields "req" [⟨[⟨some ⟨some "a"⟩, some "stop"⟩], some "m"⟩]
  rw [h]; rfl

/-- Witness for `build_messages_one_per_turn` at a concrete turn list. -/
theorem build_messages_one_per_turn_witness :
    (build_messages [⟨some "user", some "hi", none⟩]).length = 1 ∧
    (buildMessage ⟨some "observer", some "hi", none⟩).role = "observer" := by
  constructor
  · exact build_messages_one_per_turn.1 [⟨some "user", some "hi", none⟩]
  · exact build_messages_one_per_turn.2.2 ⟨some "observer", some "hi", none⟩

/-- Witness for `genParams_exact` at a concrete configuration. -/
theorem genParams_exact_witness :
    ("temperature", PyVal.int 1) ∈
      genParams (some ⟨some (PyVal.int 1), none, none, none, none⟩) ∧
    genParams none = [] := by
  constructor
  · exact (genParams_exact.1 (some ⟨some (PyVal.int 1), none, none, none, none⟩)
      "temperature" (PyVal.int 1)).2 (by decide)
  · exact genParams_exact.2.2

/-- Witness for `resolve_model_amended` at a concrete settings value. -/
theorem resolve_model_amended_witness :
    resolveExplicit (some "k") ⟨"m1", "v1"⟩ = "k" ∧
    resolveRegular ⟨"m1", "v1"⟩ = "m1" ∧
    resolveVision ⟨"m1", "v1"⟩ = "v1" := by
  refine ⟨?_, ?_, ?_⟩
  · have h := resolve_model_amended.1 "k" ⟨"m1", "v1"⟩
    rw [h]; decide
  · exact resolve_model_amended.2.2.1 ⟨"m1", "v1"⟩
  · have h := resolve_model_amended.2.2.2 ⟨"m1", "v1"⟩
    rw [h]; decide

/-- The message of a non-streaming choice; its content may be `None`. -/
structure RespMessage where
  content : Option String
  deriving DecidableEq

/-- One choice of a non-streaming backend response. -/
structure RespChoice where
  message : RespMessage
  finish_reason : Option String
  deriving DecidableEq

/-- The usage object of a non-streaming backend response (a present object
is always truthy in Python, so only presence matters). -/
structure Usage where
  completion_tokens : Int
  deriving DecidableEq

/-- A successful non-streaming backend response as `respond` reads it:
reported model, choices (the code indexes the first — an empty list raises),
and optional usage. -/
structure BackendResponse where
  model : String
  choices : List RespChoice
  usage : Option Usage
  deriving DecidableEq

/-- The result dictionary `respond` returns. -/
structure CompletionResult where
  model : String
  content : Option String
  stop_reason : Option String
  predicted_tokens : Option Int
  deriving DecidableEq

/-- Result assembly of `respond` (src/app/services.py lines 136-141) from a
successful backend response: `none` models the `IndexError` that
`response.choices[0]` raises on an empty choice list (which the boundary
layer turns into a 503); otherwise the returned dictionary. -/
def respondResult (resp : BackendResponse) : Option CompletionResult :=
  match resp.choices with
  | [] => none
  | c :: _ =>
      some ⟨resp.model, c.message.content, c.finish_reason,
        resp.usage.map Usage.completion_tokens⟩

/-- C8: on a successful backend response with a first choice, `respond`
returns the backend-reported model name (not the requested key), the first
choice's content and finish reason, and the usage-reported completion-token
count exactly when the backend reports usage. -/
theorem respondResult_fields (resp : BackendResponse) (c : RespChoice)
    (cs : List RespChoice) (h : resp.choices = c :: cs) :
    respondResult resp =
      some ⟨resp.model, c.message.content, c.finish_reason,
        resp.usage.map Usage.completion_tokens⟩ ∧
    (resp.usage = none → (respondResult resp).map CompletionResult.predicted_tokens
      = some none) := by
  constructor
  · rw [respondResult, h]
  · intro hu
    rw [respondResult, h, hu]
    rfl

/-- Witness for `respondResult_fields` at a concrete backend response. -/
theorem respondResult_fields_witness :
    respondResult ⟨"m1", [⟨⟨some "hello"⟩, some "stop"⟩], some ⟨1⟩⟩ =
      some ⟨"m1", some "hello", some "stop", some 1⟩ := by
  have h := (respondResult_fields ⟨"m1", [⟨⟨some "hello"⟩, some "stop"⟩], some ⟨1⟩⟩
    ⟨⟨some "hello"⟩, some "stop"⟩ [] rfl).1
  rw [h]; rfl

/-- The outcome of the `/chat` route as seen by the client: an HTTP status
code and the completion body when there is one. -/
structure HttpOutcome where
  status : Nat
  body : Option CompletionResult
  deriving DecidableEq

/-- The `chat` route handler (src/app/routes/chat.py lines 13-32).  Request
unpacking and the `respond` call run inside one `try/except Exception`; an
exception becomes `HTTPException(status_code=503)` with no body.  The final
`return ChatResponse(**data)` (line 32) sits outside the try/except:
`ChatResponse.content` is a required non-optional `str`
(src/app/schemas.py lines 42-46), while `respond` passes the first choice's
content through, which may be `None` — in that case response-model
validation raises outside the handler's try/except and the framework turns
the unhandled exception into a 500 response with no completion body.  With
`content` present the validated body is returned as a 200 response.  The
argument is the outcome of the client invocation: `Except` error carries
the raised exception's message. -/
def chat (invocation : Except String CompletionResult) : HttpOutcome :=
  match invocation with
  | .error _ => ⟨503, none⟩
  | .ok data =>
      match data.content with
      | none => ⟨500, none⟩
      | some _ => ⟨200, some data⟩

/-- C9 counterexample: a client invocation that raises no error but returns
`None` content is not answered with a 2xx — `ChatResponse(**data)` runs
outside the try/except, its validation rejects the missing `content`, and
the endpoint returns a 500 (with no body, and not a 503 either). -/
theorem chat_null_content_cex :
    chat (.ok ⟨"m1", none, some "stop", some 1⟩) = ⟨500, none⟩ ∧
    ¬ (200 ≤ (chat (.ok ⟨"m1", none, some "stop", some 1⟩)).status ∧
        (chat (.ok ⟨"m1", none, some "stop", some 1⟩)).status < 300) ∧
    (chat (.ok ⟨"m1", none, some "stop", some 1⟩)).status ≠ 503 := by
  refine ⟨rfl, by decide, by decide⟩

/-- C9 amended: any error raised during client invocation yields a 503 with
no partial result; when no error is raised the endpoint returns a 2xx
carrying the completion body if and only if the completion's content is
present — a successful invocation whose content is `None` fails
response-model validation outside the try/except and yields a 500 with no
body. -/
theorem chat_status (invocation : Except String CompletionResult) :
    (∀ e, invocation = .error e → chat invocation = ⟨503, none⟩) ∧
    (∀ data s, invocation = .ok data → data.content = some s →
      chat invocation = ⟨200, some data⟩) ∧
    (∀ data, invocation = .ok data → data.content = none →
      chat invocation = ⟨500, none⟩) ∧
    (200 ≤ (chat invocation).status ∧ (chat invocation).status < 300 ↔
      ∃ data s, invocation = .ok data ∧ data.content = some s ∧
        (chat invocation).body = some data) := by
  refine ⟨fun e he => ?_, fun data s hd hc => ?_, fun data hd hc => ?_, ?_⟩
  · rw [he]; rfl
  · rw [hd]; simp [chat, hc]
  · rw [hd]; simp [chat, hc]
  · cases invocation with
    | error e => simp [chat]
    | ok data =>
        cases hc : data.content with
        | none => simp [chat, hc]
        | some s => simp [chat, hc]

/-- Witness for `chat_status` at a concrete failure, a concrete success with
present content, and a concrete success with `None` content. -/
theorem chat_status_witness :
    chat (.error "connection refused") = ⟨503, none⟩ ∧
    chat (.ok ⟨"m1", some "hi", some "stop", some 1⟩) =
      ⟨200, some ⟨"m1", some "hi", some "stop", some 1⟩⟩ ∧
    chat (.ok ⟨"m1", none, none, none⟩) = ⟨500, none⟩ := by
  refine ⟨?_, ?_, ?_⟩
  · exact (chat_status (.error "connection refused")).1 "connection refused" rfl
  · exact (chat_status (.ok ⟨"m1", some "hi", some "stop", some 1⟩)).2.1
      ⟨"m1", some "hi", some "stop", some 1⟩ "hi" rfl rfl
  · exact (chat_status (.ok ⟨"m1", none, none, none⟩)).2.2.1
      ⟨"m1", none, none, none⟩ rfl rfl

end LMStudio
